import Mathlib

/-!
# The sqflite web worker shim (`web/sqflite_sw.js`)

The worker keeps one module-level variable `db` and installs one message
handler.  A request is `e.data = { id, method, params }`; the handler calls
the SQL engine loaded by `importScripts` and posts one reply object.

The embedding below follows the handler statement by statement.

* JavaScript values are the data that a structured clone can deliver:
  `undefined`, `null`, booleans, numbers (integer valued), strings, arrays and
  plain objects.  Functions and symbols cannot cross `postMessage`, so they
  are not represented, and `self.postMessage` never fails on these values.
* The SQL engine (`initSqlJs`, `new SQL.Database()`, `db.exec`, `db.close`)
  is an external collaborator: it is a parameter of the model, given as
  functions over an arbitrary engine state; every call either returns or
  throws a value.
* Texts that the host produces (the message of a `TypeError`, the
  rendering of a number) are parameters as well.
* One run of the handler is modelled from delivery to completion: the
  `await` of the open branch yields the settled outcome of `initSqlJs`, and
  no other handler run is placed in between.
* The worker state carries two histories that the program itself does not
  keep: the engine calls made so far and the messages posted so far.
-/

namespace SqfliteSw

/-! ## Values -/

/-- JavaScript values that can reach or leave the worker. -/
inductive Value where
  | undefined
  | null
  | bool (b : Bool)
  | num (n : Int)
  | str (s : String)
  | arr (items : List Value)
  | obj (fields : List (String × Value))

/-- Texts of the host: they differ between JavaScript engines, so the model
takes them as given. -/
structure Runtime where
  /-- Rendering of a number by `Number::toString`. -/
  numberToString : Int → String
  /-- Message of the `TypeError` raised when property `name` is read from
  the expression `expr` whose value `v` is `undefined` or `null`. -/
  nullishRead : (expr : String) → (v : Value) → (name : String) → String
  /-- Message of the `TypeError` raised when an object has no usable
  `toString` or `valueOf`. -/
  notPrimitive : String

/-- Is the value `undefined` or `null`? -/
def Value.isNullish : Value → Bool
  | .undefined => true
  | .null => true
  | _ => false

/-- Own data property `name` of a plain object, `undefined` when absent. -/
def lookup (name : String) : List (String × Value) → Value
  | [] => .undefined
  | (k, v) :: rest => if k == name then v else lookup name rest

/-- Does the plain object own a property `name`? -/
def hasKey (name : String) : List (String × Value) → Bool
  | [] => false
  | (k, _) :: rest => k == name || hasKey name rest

/-- An `Error` object as far as the handler looks at it: `new Error(message)`
owns the data property `message`. -/
def mkError (message : String) : Value :=
  .obj [("message", .str message)]

/-- The strict comparison `v === 'literal'` against a string literal: true
only for the string primitive with the same characters. -/
def strictEq (v : Value) (literal : String) : Bool :=
  match v with
  | .str s => s == literal
  | _ => false

/-- The property read `expr.name` for a name (`sql`, `message`) that no
built-in prototype carries: reading from `undefined` or `null` throws a
`TypeError`, a plain object gives its own property, every other value gives
`undefined`. -/
def getProp (rt : Runtime) (expr : String) (v : Value) (name : String) :
    Except Value Value :=
  match v with
  | .undefined => .error (mkError (rt.nullishRead expr .undefined name))
  | .null => .error (mkError (rt.nullishRead expr .null name))
  | .obj fields => .ok (lookup name fields)
  | _ => .ok .undefined

mutual
/-- The conversion `ToString` applied by a template literal.  A plain
object renders as `[object Object]` unless it owns a property `toString`
(which, in cloned data, is never callable), in which case the conversion
throws; an array renders as its joined elements. -/
def Value.toStringJS (rt : Runtime) : Value → Except Value String
  | .undefined => .ok "undefined"
  | .null => .ok "null"
  | .bool true => .ok "true"
  | .bool false => .ok "false"
  | .num n => .ok (rt.numberToString n)
  | .str s => .ok s
  | .arr items =>
    match elementsJS rt items with
    | .error e => .error e
    | .ok parts => .ok (String.intercalate "," parts)
  | .obj fields =>
    if hasKey "toString" fields then .error (mkError rt.notPrimitive)
    else .ok "[object Object]"
/-- The element texts of `Array.prototype.join`: `undefined` and `null`
elements give the empty text. -/
def elementsJS (rt : Runtime) : List Value → Except Value (List String)
  | [] => .ok []
  | v :: vs =>
    match (if v.isNullish then .ok "" else Value.toStringJS rt v) with
    | .error e => .error e
    | .ok a =>
      match elementsJS rt vs with
      | .error e => .error e
      | .ok rest => .ok (a :: rest)
end

/-- Own property `name` of a posted object (`undefined` for a value that is
not a plain object). -/
def Value.field (name : String) : Value → Value
  | .obj fields => lookup name fields
  | _ => .undefined

/-- Does the posted object carry a field `name`? -/
def Value.hasField (name : String) : Value → Bool
  | .obj fields => hasKey name fields
  | _ => false

/-! ## The engine and the worker state -/

/-- The module object that `initSqlJs` resolves to, by identity. -/
abbrev SqlModule := Nat

/-- A database object made by `new SQL.Database()`, by identity. -/
abbrev Database := Nat

/-- The SQL engine: each operation, run in an engine state, returns or throws
and leaves a new engine state. -/
structure Engine (σ : Type) where
  initSqlJs : σ → Except Value SqlModule × σ
  newDatabase : SqlModule → σ → Except Value Database × σ
  exec : Database → Value → σ → Except Value Value × σ
  close : Database → σ → Except Value Unit × σ

/-- The calls the handler can make on the engine. -/
inductive Call where
  | initSqlJs
  | newDatabase (sqlModule : SqlModule)
  | exec (db : Database) (sql : Value)
  | close (db : Database)

/-- A call that was made, with the value it threw (`none` when it returned). -/
structure Invocation where
  call : Call
  thrown : Option Value

/-- The thrown value of a completed call, if any. -/
def thrownOf {α : Type} : Except Value α → Option Value
  | .ok _ => none
  | .error e => some e

/-- The worker: the variable `db` (`none` while it is `undefined`), the
state of the engine, and the two histories. -/
structure Worker (σ : Type) where
  db : Option Database
  engine : σ
  calls : List Invocation
  posted : List Value

/-- The state after the script has loaded: `let db;`. -/
def Worker.initial {σ : Type} (s : σ) : Worker σ :=
  { db := none, engine := s, calls := [], posted := [] }

/-- The message data `{ id, method, params }`; a field that is missing is
`undefined`. -/
structure Request where
  id : Value
  method : Value
  params : Value

/-- The object `{ id, result }`. -/
def resultReply (id result : Value) : Value :=
  .obj [("id", id), ("result", result)]

/-- The object `{ id, error }`. -/
def errorReply (id error : Value) : Value :=
  .obj [("id", id), ("error", error)]

/-- The statement `self.postMessage(v)`. -/
def postMessage {σ : Type} (w : Worker σ) (v : Value) : Worker σ :=
  { w with posted := w.posted ++ [v] }

/-- The call `await initSqlJs(...)`. -/
def callInit {σ : Type} (eng : Engine σ) (w : Worker σ) :
    Except Value SqlModule × Worker σ :=
  let r := eng.initSqlJs w.engine
  (r.1, { w with engine := r.2, calls := w.calls ++ [⟨.initSqlJs, thrownOf r.1⟩] })

/-- The call `new SQL.Database()`. -/
def callNew {σ : Type} (eng : Engine σ) (w : Worker σ) (sqlModule : SqlModule) :
    Except Value Database × Worker σ :=
  let r := eng.newDatabase sqlModule w.engine
  (r.1, { w with engine := r.2,
                 calls := w.calls ++ [⟨.newDatabase sqlModule, thrownOf r.1⟩] })

/-- The call `db.exec(sql)` on a database object. -/
def callExec {σ : Type} (eng : Engine σ) (w : Worker σ) (d : Database) (sql : Value) :
    Except Value Value × Worker σ :=
  let r := eng.exec d sql w.engine
  (r.1, { w with engine := r.2, calls := w.calls ++ [⟨.exec d sql, thrownOf r.1⟩] })

/-- The call `db.close()` on a database object. -/
def callClose {σ : Type} (eng : Engine σ) (w : Worker σ) (d : Database) :
    Except Value Unit × Worker σ :=
  let r := eng.close d w.engine
  (r.1, { w with engine := r.2, calls := w.calls ++ [⟨.close d, thrownOf r.1⟩] })

/-! ## The handler -/

/-- The body of the `try` block: its completion (normal, or the thrown
value) and the worker state it leaves. -/
def tryBlock {σ : Type} (rt : Runtime) (eng : Engine σ) (w : Worker σ) (data : Request) :
    Except Value Unit × Worker σ :=
  if strictEq data.method "open" then
    -- const SQL = await initSqlJs(...)
    match callInit eng w with
    | (.error e, w1) => (.error e, w1)
    | (.ok SQL, w1) =>
      -- db = new SQL.Database(); the assignment happens only when the constructor returns
      match callNew eng w1 SQL with
      | (.error e, w2) => (.error e, w2)
      | (.ok d, w2) =>
        -- self.postMessage({ id, result: null })
        (.ok (), postMessage { w2 with db := some d } (resultReply data.id .null))
  else if strictEq data.method "exec" then
    -- db.exec(params.sql): the callee `db.exec` is read first, then the argument
    match w.db with
    | none => (.error (mkError (rt.nullishRead "db" .undefined "exec")), w)
    | some d =>
      match getProp rt "params" data.params "sql" with
      | .error e => (.error e, w)
      | .ok sql =>
        match callExec eng w d sql with
        | (.error e, w1) => (.error e, w1)
        | (.ok _, w1) => (.ok (), postMessage w1 (resultReply data.id .null))
  else if strictEq data.method "query" then
    -- const result = db.exec(params.sql)
    match w.db with
    | none => (.error (mkError (rt.nullishRead "db" .undefined "exec")), w)
    | some d =>
      match getProp rt "params" data.params "sql" with
      | .error e => (.error e, w)
      | .ok sql =>
        match callExec eng w d sql with
        | (.error e, w1) => (.error e, w1)
        | (.ok result, w1) => (.ok (), postMessage w1 (resultReply data.id result))
  else if strictEq data.method "close" then
    -- db.close()
    match w.db with
    | none => (.error (mkError (rt.nullishRead "db" .undefined "close")), w)
    | some d =>
      match callClose eng w d with
      | (.error e, w1) => (.error e, w1)
      | (.ok _, w1) => (.ok (), postMessage w1 (resultReply data.id .null))
  else
    -- throw new Error(`Unknown method: ${method}`): the template converts method to a string
    match data.method.toStringJS rt with
    | .error e => (.error e, w)
    | .ok text => (.error (mkError ("Unknown method: " ++ text)), w)

/-- The `catch (error)` block: `self.postMessage({ id, error: error.message })`.
When reading `message` itself throws (the thrown value is `undefined` or
`null`) the exception leaves the handler and nothing is posted. -/
def catchBlock {σ : Type} (rt : Runtime) (w : Worker σ) (data : Request) (error : Value) :
    Worker σ :=
  match getProp rt "error" error "message" with
  | .error _ => w
  | .ok message => postMessage w (errorReply data.id message)

/-- The handler `self.onmessage`, run on the message data `e.data`. -/
def onmessage {σ : Type} (rt : Runtime) (eng : Engine σ) (w : Worker σ) (data : Request) :
    Worker σ :=
  match tryBlock rt eng w data with
  | (.ok _, w1) => w1
  | (.error error, w1) => catchBlock rt w1 data error

/-- The handler run on a sequence of requests, one after the other. -/
def onmessageAll {σ : Type} (rt : Runtime) (eng : Engine σ) :
    Worker σ → List Request → Worker σ
  | w, [] => w
  | w, data :: rest => onmessageAll rt eng (onmessage rt eng w data) rest

/-! ## Notions used by the statements -/

/-- Is the method one of the four strings the handler dispatches on? -/
def isKnownMethod (method : Value) : Bool :=
  strictEq method "open" || strictEq method "exec" || strictEq method "query" ||
    strictEq method "close"

/-- The engine throws error objects (anything but `undefined` and `null`). -/
def Engine.ThrowsErrors {σ : Type} (eng : Engine σ) : Prop :=
  (∀ s v, (eng.initSqlJs s).1 = .error v → v.isNullish = false) ∧
  (∀ sqlModule s v, (eng.newDatabase sqlModule s).1 = .error v → v.isNullish = false) ∧
  (∀ d sql s v, (eng.exec d sql s).1 = .error v → v.isNullish = false) ∧
  (∀ d s v, (eng.close d s).1 = .error v → v.isNullish = false)

/-- The engine calls made while one request is handled. -/
def callsMade {σ : Type} (rt : Runtime) (eng : Engine σ) (w : Worker σ) (data : Request) :
    List Invocation :=
  (onmessage rt eng w data).calls.drop w.calls.length

/-- The messages posted while one request is handled. -/
def replies {σ : Type} (rt : Runtime) (eng : Engine σ) (w : Worker σ) (data : Request) :
    List Value :=
  (onmessage rt eng w data).posted.drop w.posted.length

/-- An open request succeeds when engine initialisation and database
construction both return. -/
def openSucceeds {σ : Type} (eng : Engine σ) (w : Worker σ) (data : Request) : Bool :=
  strictEq data.method "open" &&
    match eng.initSqlJs w.engine with
    | (.error _, _) => false
    | (.ok sqlModule, s) =>
      match eng.newDatabase sqlModule s with
      | (.error _, _) => false
      | (.ok _, _) => true

/-- No request of the sequence, handled in turn from `w`, is a successful open. -/
def noSuccessfulOpen {σ : Type} (rt : Runtime) (eng : Engine σ) :
    Worker σ → List Request → Bool
  | _, [] => true
  | w, data :: rest =>
    !openSucceeds eng w data && noSuccessfulOpen rt eng (onmessage rt eng w data) rest

/-! ## A concrete host and engine, for the examples -/

/-- Message texts in the style of V8. -/
def demoRuntime : Runtime where
  numberToString := fun n => toString n
  nullishRead := fun _ v name =>
    "Cannot read properties of " ++ (match v with | .null => "null" | _ => "undefined") ++
      " (reading " ++ name ++ ")"
  notPrimitive := "Cannot convert object to primitive value"

/-- The rows the example engine returns for `SELECT 1`. -/
def demoRows : Value :=
  .arr [.obj [("columns", .arr [.str "1"]), ("values", .arr [.arr [.num 1]])]]

/-- An example engine.  Its state counts the databases constructed: a new
database is named by the count.  `SELECT 1` returns one row, `CREATE TABLE t (x)`
returns no rows, any other statement throws. -/
def demoEngine : Engine Nat where
  initSqlJs := fun s => (.ok 0, s)
  newDatabase := fun _ s => (.ok s, s + 1)
  exec := fun _ sql s =>
    if strictEq sql "SELECT 1" then (.ok demoRows, s)
    else if strictEq sql "CREATE TABLE t (x)" then (.ok (.arr []), s)
    else (.error (mkError "near BOGUS"), s)
  close := fun _ s => (.ok (), s)

/-- The request `{ id: 1, method: 'open' }`. -/
def openRequest : Request := ⟨.num 1, .str "open", .undefined⟩

/-- The request `{ id: 2, method, params: { sql } }`. -/
def sqlRequest (method sql : String) : Request :=
  ⟨.num 2, .str method, .obj [("sql", .str sql)]⟩

/-- The request `{ id: 3, method: 'close' }`. -/
def closeRequest : Request := ⟨.num 3, .str "close", .undefined⟩

/-- The request `{ id: 4, method }` without params. -/
def bareRequest (method : String) : Request := ⟨.num 4, .str method, .undefined⟩

/-- The worker of the example engine after one successful open. -/
def openedWorker : Worker Nat :=
  onmessage demoRuntime demoEngine (Worker.initial 0) openRequest

/-- The worker of the example engine after a successful open and a
successful close. -/
def closedWorker : Worker Nat :=
  onmessage demoRuntime demoEngine openedWorker closeRequest

/-- The requests of the example that never open a database: an exec, an
unknown method and a close. -/
def unopenedRequests : List Request :=
  [sqlRequest "exec" "SELECT 1", bareRequest "vacuum", closeRequest]

/-! ## Lemmas on the handler -/

variable {σ : Type}

theorem strictEq_iff (v : Value) (literal : String) :
    strictEq v literal = true ↔ v = .str literal := by
  cases v <;> simp [strictEq]

mutual
theorem toStringJS_error (rt : Runtime) :
    ∀ (v e : Value), v.toStringJS rt = .error e → e = mkError rt.notPrimitive
  | .undefined, e, h => by simp [Value.toStringJS] at h
  | .null, e, h => by simp [Value.toStringJS] at h
  | .bool true, e, h => by simp [Value.toStringJS] at h
  | .bool false, e, h => by simp [Value.toStringJS] at h
  | .num _, e, h => by simp [Value.toStringJS] at h
  | .str _, e, h => by simp [Value.toStringJS] at h
  | .arr items, e, h => by
    rw [Value.toStringJS] at h
    split at h
    · rename_i e1 he
      have := elementsJS_error rt items e1 he
      simp at h
      rw [← h, this]
    · simp at h
  | .obj fields, e, h => by
    rw [Value.toStringJS] at h
    split at h
    · simp at h; exact h.symm
    · simp at h
theorem elementsJS_error (rt : Runtime) :
    ∀ (vs : List Value) (e : Value), elementsJS rt vs = .error e → e = mkError rt.notPrimitive
  | [], e, h => by simp [elementsJS] at h
  | v :: vs, e, h => by
    rw [elementsJS] at h
    split at h
    · rename_i e1 he
      simp at h
      subst h
      split at he
      · simp at he
      · exact toStringJS_error rt v _ he
    · split at h
      · rename_i e1 he
        simp at h
        subst h
        exact elementsJS_error rt vs _ he
      · simp at h
end

theorem getProp_mkError (rt : Runtime) (expr message : String) :
    getProp rt expr (mkError message) "message" = .ok (.str message) := by
  simp [getProp, mkError, lookup]

theorem catchBlock_mkError (rt : Runtime) (w : Worker σ) (data : Request) (message : String) :
    catchBlock rt w data (mkError message) = postMessage w (errorReply data.id (.str message)) := by
  simp [catchBlock, getProp_mkError]

theorem getProp_error_iff (rt : Runtime) (expr name : String) (v e : Value) :
    getProp rt expr v name = .error e ↔
      v.isNullish = true ∧ e = mkError (rt.nullishRead expr v name) := by
  cases v <;> simp [getProp, Value.isNullish, eq_comm]

theorem getProp_ok_of_not_nullish (rt : Runtime) (expr name : String) (v : Value)
    (h : v.isNullish = false) : ∃ x, getProp rt expr v name = .ok x := by
  cases v <;> simp_all [getProp, Value.isNullish]

theorem isKnownMethod_eq_false (method : Value) :
    isKnownMethod method = false ↔
      method ≠ .str "open" ∧ method ≠ .str "exec" ∧ method ≠ .str "query" ∧
        method ≠ .str "close" := by
  simp [isKnownMethod, ← strictEq_iff, and_assoc]

/-- Every run of the handler takes one of thirteen routes; a property that
holds of the state each route leaves holds of the state the handler leaves. -/
theorem onmessage_elim (rt : Runtime) (eng : Engine σ) (w : Worker σ) (data : Request)
    (P : Worker σ → Prop)
    (openInitThrows : ∀ e s1, data.method = .str "open" →
      eng.initSqlJs w.engine = (.error e, s1) →
      P (catchBlock rt { w with engine := s1, calls := w.calls ++ [⟨.initSqlJs, some e⟩] } data e))
    (openNewThrows : ∀ sqlModule s1 e s2, data.method = .str "open" →
      eng.initSqlJs w.engine = (.ok sqlModule, s1) →
      eng.newDatabase sqlModule s1 = (.error e, s2) →
      P (catchBlock rt { w with engine := s2, calls := w.calls ++
          [⟨.initSqlJs, none⟩, ⟨.newDatabase sqlModule, some e⟩] } data e))
    (openReturns : ∀ sqlModule s1 d s2, data.method = .str "open" →
      eng.initSqlJs w.engine = (.ok sqlModule, s1) →
      eng.newDatabase sqlModule s1 = (.ok d, s2) →
      P { db := some d, engine := s2,
          calls := w.calls ++ [⟨.initSqlJs, none⟩, ⟨.newDatabase sqlModule, none⟩],
          posted := w.posted ++ [resultReply data.id .null] })
    (execNoDb : (data.method = .str "exec" ∨ data.method = .str "query") → w.db = none →
      P (postMessage w (errorReply data.id (.str (rt.nullishRead "db" .undefined "exec")))))
    (execNoParams : ∀ d, (data.method = .str "exec" ∨ data.method = .str "query") →
      w.db = some d → data.params.isNullish = true →
      P (postMessage w
          (errorReply data.id (.str (rt.nullishRead "params" data.params "sql")))))
    (execThrows : ∀ d sql e s1, (data.method = .str "exec" ∨ data.method = .str "query") →
      w.db = some d → getProp rt "params" data.params "sql" = .ok sql →
      eng.exec d sql w.engine = (.error e, s1) →
      P (catchBlock rt { w with engine := s1, calls := w.calls ++ [⟨.exec d sql, some e⟩] }
          data e))
    (execReturns : ∀ d sql r s1, data.method = .str "exec" →
      w.db = some d → getProp rt "params" data.params "sql" = .ok sql →
      eng.exec d sql w.engine = (.ok r, s1) →
      P { w with engine := s1, calls := w.calls ++ [⟨.exec d sql, none⟩],
                 posted := w.posted ++ [resultReply data.id .null] })
    (queryReturns : ∀ d sql r s1, data.method = .str "query" →
      w.db = some d → getProp rt "params" data.params "sql" = .ok sql →
      eng.exec d sql w.engine = (.ok r, s1) →
      P { w with engine := s1, calls := w.calls ++ [⟨.exec d sql, none⟩],
                 posted := w.posted ++ [resultReply data.id r] })
    (closeNoDb : data.method = .str "close" → w.db = none →
      P (postMessage w (errorReply data.id (.str (rt.nullishRead "db" .undefined "close")))))
    (closeThrows : ∀ d e s1, data.method = .str "close" → w.db = some d →
      eng.close d w.engine = (.error e, s1) →
      P (catchBlock rt { w with engine := s1, calls := w.calls ++ [⟨.close d, some e⟩] }
          data e))
    (closeReturns : ∀ d u s1, data.method = .str "close" → w.db = some d →
      eng.close d w.engine = (.ok u, s1) →
      P { w with engine := s1, calls := w.calls ++ [⟨.close d, none⟩],
                 posted := w.posted ++ [resultReply data.id .null] })
    (unknownText : ∀ text, isKnownMethod data.method = false →
      data.method.toStringJS rt = .ok text →
      P (postMessage w (errorReply data.id (.str ("Unknown method: " ++ text)))))
    (unknownThrows : isKnownMethod data.method = false →
      data.method.toStringJS rt = .error (mkError rt.notPrimitive) →
      P (postMessage w (errorReply data.id (.str rt.notPrimitive)))) :
    P (onmessage rt eng w data) := by
  by_cases ho : data.method = .str "open"
  · rcases hi : eng.initSqlJs w.engine with ⟨e | sqlModule, s1⟩
    · have := openInitThrows e s1 ho hi
      simpa [onmessage, tryBlock, ho, strictEq, callInit, hi, thrownOf] using this
    · rcases hn : eng.newDatabase sqlModule s1 with ⟨e | d, s2⟩
      · have := openNewThrows sqlModule s1 e s2 ho hi hn
        simpa [onmessage, tryBlock, ho, strictEq, callInit, hi, callNew, hn, thrownOf] using this
      · have := openReturns sqlModule s1 d s2 ho hi hn
        simpa [onmessage, tryBlock, ho, strictEq, callInit, hi, callNew, hn, thrownOf,
          postMessage] using this
  by_cases hx : data.method = .str "exec"
  · rcases hdb : w.db with _ | d
    · have := execNoDb (Or.inl hx) hdb
      simpa [onmessage, tryBlock, hx, strictEq, hdb, catchBlock_mkError] using this
    · rcases hp : getProp rt "params" data.params "sql" with e | sql
      · obtain ⟨hnull, rfl⟩ := (getProp_error_iff _ _ _ _ _).1 hp
        have := execNoParams d (Or.inl hx) hdb hnull
        simpa [onmessage, tryBlock, hx, strictEq, hdb, hp, catchBlock_mkError] using this
      · rcases he : eng.exec d sql w.engine with ⟨e | r, s1⟩
        · have := execThrows d sql e s1 (Or.inl hx) hdb hp he
          simpa [onmessage, tryBlock, hx, strictEq, hdb, hp, callExec, he, thrownOf] using this
        · have := execReturns d sql r s1 hx hdb hp he
          simpa [onmessage, tryBlock, hx, strictEq, hdb, hp, callExec, he, thrownOf,
            postMessage] using this
  by_cases hq : data.method = .str "query"
  · rcases hdb : w.db with _ | d
    · have := execNoDb (Or.inr hq) hdb
      simpa [onmessage, tryBlock, hq, strictEq, hdb, catchBlock_mkError] using this
    · rcases hp : getProp rt "params" data.params "sql" with e | sql
      · obtain ⟨hnull, rfl⟩ := (getProp_error_iff _ _ _ _ _).1 hp
        have := execNoParams d (Or.inr hq) hdb hnull
        simpa [onmessage, tryBlock, hq, strictEq, hdb, hp, catchBlock_mkError] using this
      · rcases he : eng.exec d sql w.engine with ⟨e | r, s1⟩
        · have := execThrows d sql e s1 (Or.inr hq) hdb hp he
          simpa [onmessage, tryBlock, hq, strictEq, hdb, hp, callExec, he, thrownOf] using this
        · have := queryReturns d sql r s1 hq hdb hp he
          simpa [onmessage, tryBlock, hq, strictEq, hdb, hp, callExec, he, thrownOf,
            postMessage] using this
  by_cases hc : data.method = .str "close"
  · rcases hdb : w.db with _ | d
    · have := closeNoDb hc hdb
      simpa [onmessage, tryBlock, hc, strictEq, hdb, catchBlock_mkError] using this
    · rcases he : eng.close d w.engine with ⟨e | u, s1⟩
      · have := closeThrows d e s1 hc hdb he
        simpa [onmessage, tryBlock, hc, strictEq, hdb, callClose, he, thrownOf] using this
      · have := closeReturns d u s1 hc hdb he
        simpa [onmessage, tryBlock, hc, strictEq, hdb, callClose, he, thrownOf,
          postMessage] using this
  have hk : isKnownMethod data.method = false :=
    (isKnownMethod_eq_false _).2 ⟨ho, hx, hq, hc⟩
  have ho1 : strictEq data.method "open" = false := by
    simpa [← strictEq_iff] using ho
  have hx1 : strictEq data.method "exec" = false := by
    simpa [← strictEq_iff] using hx
  have hq1 : strictEq data.method "query" = false := by
    simpa [← strictEq_iff] using hq
  have hc1 : strictEq data.method "close" = false := by
    simpa [← strictEq_iff] using hc
  rcases ht : data.method.toStringJS rt with e | text
  · have he := toStringJS_error rt _ _ ht
    subst he
    have := unknownThrows hk ht
    simpa [onmessage, tryBlock, ho1, hx1, hq1, hc1, ht, catchBlock_mkError] using this
  · have := unknownText text hk ht
    simpa [onmessage, tryBlock, ho1, hx1, hq1, hc1, ht, catchBlock_mkError] using this
theorem field_id_errorReply (id e : Value) : (errorReply id e).field "id" = id := by
  simp [errorReply, Value.field, lookup]

theorem field_id_resultReply (id r : Value) : (resultReply id r).field "id" = id := by
  simp [resultReply, Value.field, lookup]

theorem catchBlock_of_not_nullish (rt : Runtime) (w : Worker σ) (data : Request) (e : Value)
    (h : e.isNullish = false) :
    ∃ message, catchBlock rt w data e = postMessage w (errorReply data.id message) := by
  obtain ⟨message, hm⟩ := getProp_ok_of_not_nullish rt "error" "message" e h
  exact ⟨message, by simp [catchBlock, hm]⟩

theorem demoEngine_throwsErrors : demoEngine.ThrowsErrors := by
  refine ⟨?_, ?_, ?_, ?_⟩
  · intro s v h; simp [demoEngine] at h
  · intro m s v h; simp [demoEngine] at h
  · intro d sql s v h
    simp only [demoEngine] at h
    split at h
    · simp at h
    · split at h
      · simp at h
      · simp at h; subst h; rfl
  · intro d s v h; simp [demoEngine] at h

@[simp]
theorem catchBlock_db (rt : Runtime) (w : Worker σ) (data : Request) (e : Value) :
    (catchBlock rt w data e).db = w.db := by
  unfold catchBlock; split <;> rfl

@[simp]
theorem catchBlock_engine (rt : Runtime) (w : Worker σ) (data : Request) (e : Value) :
    (catchBlock rt w data e).engine = w.engine := by
  unfold catchBlock; split <;> rfl

@[simp]
theorem catchBlock_calls (rt : Runtime) (w : Worker σ) (data : Request) (e : Value) :
    (catchBlock rt w data e).calls = w.calls := by
  unfold catchBlock; split <;> rfl

@[simp]
theorem hasField_error_errorReply (id e : Value) :
    (errorReply id e).hasField "error" = true := by
  simp [errorReply, Value.hasField, hasKey]

@[simp]
theorem hasField_result_errorReply (id e : Value) :
    (errorReply id e).hasField "result" = false := by
  simp [errorReply, Value.hasField, hasKey]

@[simp]
theorem hasField_error_resultReply (id r : Value) :
    (resultReply id r).hasField "error" = false := by
  simp [resultReply, Value.hasField, hasKey]

@[simp]
theorem hasField_result_resultReply (id r : Value) :
    (resultReply id r).hasField "result" = true := by
  simp [resultReply, Value.hasField, hasKey]

theorem not_nullish_of_getProp_ok (rt : Runtime) (expr name : String) (v x : Value)
    (h : getProp rt expr v name = .ok x) : v.isNullish = false := by
  cases v <;> simp_all [getProp, Value.isNullish]

theorem onmessage_calls (rt : Runtime) (eng : Engine σ) (w : Worker σ) (data : Request) :
    (onmessage rt eng w data).calls = w.calls ++ callsMade rt eng w data := by
  unfold callsMade
  apply onmessage_elim rt eng w data (fun r => r.calls = w.calls ++ r.calls.drop w.calls.length)
  all_goals intros
  all_goals simp [postMessage]

theorem onmessage_db_of_not_open (rt : Runtime) (eng : Engine σ) (w : Worker σ)
    (data : Request) (h : data.method ≠ .str "open") : (onmessage rt eng w data).db = w.db := by
  apply onmessage_elim rt eng w data (fun r => r.db = w.db)
  case openInitThrows => intro _ _ hm; exact absurd hm h
  case openNewThrows => intro _ _ _ _ hm; exact absurd hm h
  case openReturns => intro _ _ _ _ hm; exact absurd hm h
  all_goals intros
  all_goals simp [postMessage]

theorem onmessage_db_of_not_openSucceeds (rt : Runtime) (eng : Engine σ) (w : Worker σ)
    (data : Request) (h : openSucceeds eng w data = false) :
    (onmessage rt eng w data).db = w.db := by
  apply onmessage_elim rt eng w data (fun r => r.db = w.db)
  case openReturns =>
    intro _ _ _ _ hm hi hn
    simp [openSucceeds, hm, strictEq, hi, hn] at h
  all_goals intros
  all_goals simp [postMessage]

theorem exec_call_of_mem_callsMade (rt : Runtime) (eng : Engine σ) (w : Worker σ)
    (data : Request) (c : Invocation) (hc : c ∈ callsMade rt eng w data)
    (d : Database) (sql : Value) (hcall : c.call = .exec d sql) :
    w.db = some d ∧ getProp rt "params" data.params "sql" = .ok sql := by
  revert hc
  unfold callsMade
  apply onmessage_elim rt eng w data
    (fun r => c ∈ r.calls.drop w.calls.length →
      w.db = some d ∧ getProp rt "params" data.params "sql" = .ok sql)
  case execThrows =>
    intro d0 sql0 e s1 _ hdb hp _ hc
    simp at hc
    subst hc
    simp at hcall
    obtain ⟨rfl, rfl⟩ := hcall
    exact ⟨hdb, hp⟩
  case execReturns =>
    intro d0 sql0 r s1 _ hdb hp _ hc
    simp at hc
    subst hc
    simp at hcall
    obtain ⟨rfl, rfl⟩ := hcall
    exact ⟨hdb, hp⟩
  case queryReturns =>
    intro d0 sql0 r s1 _ hdb hp _ hc
    simp at hc
    subst hc
    simp at hcall
    obtain ⟨rfl, rfl⟩ := hcall
    exact ⟨hdb, hp⟩
  case openNewThrows =>
    intro _ _ _ _ _ _ _ hc
    simp at hc
    rcases hc with rfl | rfl <;> simp at hcall
  case openReturns =>
    intro _ _ _ _ _ _ _ hc
    simp at hc
    rcases hc with rfl | rfl <;> simp at hcall
  all_goals intros
  all_goals simp_all [postMessage]

theorem onmessageAll_db_of_no_open (rt : Runtime) (eng : Engine σ) :
    ∀ (between : List Request) (w : Worker σ),
      (∀ b ∈ between, b.method ≠ .str "open") → (onmessageAll rt eng w between).db = w.db
  | [], _, _ => rfl
  | b :: rest, w, h => by
    rw [onmessageAll, onmessageAll_db_of_no_open rt eng rest _
      (fun x hx => h x (List.mem_cons_of_mem _ hx))]
    exact onmessage_db_of_not_open rt eng w b (h b (List.mem_cons_self _ _))

theorem onmessageAll_of_noSuccessfulOpen (rt : Runtime) (eng : Engine σ) :
    ∀ (rest : List Request) (w : Worker σ), noSuccessfulOpen rt eng w rest = true →
      (onmessageAll rt eng w rest).db = w.db ∧
        ∃ made, (onmessageAll rt eng w rest).calls = w.calls ++ made ∧
          ∀ c ∈ made, ∀ d sql, c.call = .exec d sql → w.db = some d
  | [], w, _ => ⟨rfl, [], by simp [onmessageAll], by simp⟩
  | data :: rest, w, h => by
    simp only [noSuccessfulOpen, Bool.and_eq_true, Bool.not_eq_true'] at h
    obtain ⟨hdata, hrest⟩ := h
    have hdb := onmessage_db_of_not_openSucceeds rt eng w data hdata
    obtain ⟨hdb2, made, hcalls, hmade⟩ :=
      onmessageAll_of_noSuccessfulOpen rt eng rest (onmessage rt eng w data) hrest
    refine ⟨by rw [onmessageAll, hdb2, hdb], callsMade rt eng w data ++ made, ?_, ?_⟩
    · rw [onmessageAll, hcalls, onmessage_calls, List.append_assoc]
    · intro c hc d sql hcall
      rcases List.mem_append.1 hc with hc | hc
      · exact (exec_call_of_mem_callsMade rt eng w data c hc d sql hcall).1
      · rw [← hdb]
        exact hmade c hc d sql hcall

/-! ## The claims -/

/-- C1: for every request `{ id, method, params }`, every database handle
(none included) and every engine whose calls return or throw an error object,
the handler posts exactly one reply, and the `id` field of that reply is the
request's `id`. -/
theorem onmessage_posts_one_reply (rt : Runtime) (eng : Engine σ) (w : Worker σ)
    (data : Request) (h : eng.ThrowsErrors) :
    ∃ reply, (onmessage rt eng w data).posted = w.posted ++ [reply] ∧
      reply.field "id" = data.id := by
  obtain ⟨h1, h2, h3, h4⟩ := h
  apply onmessage_elim rt eng w data
    (fun r => ∃ reply : Value, r.posted = w.posted ++ [reply] ∧ reply.field "id" = data.id)
  · intro e s1 _ hi
    obtain ⟨m, hm⟩ := catchBlock_of_not_nullish rt
      { w with engine := s1, calls := w.calls ++ [⟨.initSqlJs, some e⟩] } data e
      (h1 _ _ (by rw [hi]))
    exact ⟨_, by rw [hm]; rfl, field_id_errorReply _ _⟩
  · intro sqlModule s1 e s2 _ _ hn
    obtain ⟨m, hm⟩ := catchBlock_of_not_nullish rt
      { w with engine := s2, calls := w.calls ++
          [⟨.initSqlJs, none⟩, ⟨.newDatabase sqlModule, some e⟩] } data e
      (h2 _ _ _ (by rw [hn]))
    exact ⟨_, by rw [hm]; rfl, field_id_errorReply _ _⟩
  · intro _ _ _ _ _ _ _
    exact ⟨_, rfl, field_id_resultReply _ _⟩
  · intro _ _
    exact ⟨_, rfl, field_id_errorReply _ _⟩
  · intro _ _ _ _
    exact ⟨_, rfl, field_id_errorReply _ _⟩
  · intro d sql e s1 _ _ _ he
    obtain ⟨m, hm⟩ := catchBlock_of_not_nullish rt
      { w with engine := s1, calls := w.calls ++ [⟨.exec d sql, some e⟩] } data e
      (h3 _ _ _ _ (by rw [he]))
    exact ⟨_, by rw [hm]; rfl, field_id_errorReply _ _⟩
  · intro _ _ _ _ _ _ _ _
    exact ⟨_, rfl, field_id_resultReply _ _⟩
  · intro _ _ _ _ _ _ _ _
    exact ⟨_, rfl, field_id_resultReply _ _⟩
  · intro _ _
    exact ⟨_, rfl, field_id_errorReply _ _⟩
  · intro d e s1 _ _ he
    obtain ⟨m, hm⟩ := catchBlock_of_not_nullish rt
      { w with engine := s1, calls := w.calls ++ [⟨.close d, some e⟩] } data e
      (h4 _ _ _ (by rw [he]))
    exact ⟨_, by rw [hm]; rfl, field_id_errorReply _ _⟩
  · intro _ _ _ _ _ _
    exact ⟨_, rfl, field_id_resultReply _ _⟩
  · intro _ _ _
    exact ⟨_, rfl, field_id_errorReply _ _⟩
  · intro _ _
    exact ⟨_, rfl, field_id_errorReply _ _⟩

/-- C1 at the example engine: a query on a worker that was never opened. -/
theorem onmessage_posts_one_reply_witness :
    demoEngine.ThrowsErrors ∧
      ∃ reply, (onmessage demoRuntime demoEngine (Worker.initial 0)
          (sqlRequest "query" "SELECT 1")).posted = (Worker.initial 0).posted ++ [reply] ∧
        reply.field "id" = (sqlRequest "query" "SELECT 1").id :=
  ⟨demoEngine_throwsErrors,
    onmessage_posts_one_reply demoRuntime demoEngine (Worker.initial 0)
      (sqlRequest "query" "SELECT 1") demoEngine_throwsErrors⟩

/-- C2, as stated, fails: an exec request on a worker that was never opened
is answered by an error although its method is one of the four and no engine
call was made, so none threw. -/
theorem error_iff_unknown_or_threw_fails :
    replies demoRuntime demoEngine (Worker.initial 0) (sqlRequest "exec" "SELECT 1") =
        [errorReply (.num 2) (.str "Cannot read properties of undefined (reading exec)")] ∧
      callsMade demoRuntime demoEngine (Worker.initial 0) (sqlRequest "exec" "SELECT 1") = [] ∧
      ¬ ((errorReply (.num 2)
            (.str "Cannot read properties of undefined (reading exec)")).hasField "error" = true ↔
          (isKnownMethod (sqlRequest "exec" "SELECT 1").method = false ∨
            ∃ c ∈ callsMade demoRuntime demoEngine (Worker.initial 0)
              (sqlRequest "exec" "SELECT 1"), c.thrown.isSome = true)) := by
  refine ⟨rfl, rfl, ?_⟩
  rw [show callsMade demoRuntime demoEngine (Worker.initial 0)
    (sqlRequest "exec" "SELECT 1") = [] from rfl]
  simp [isKnownMethod, sqlRequest, strictEq]

/-- C2, amended: the single reply carries exactly one of the fields `result`
and `error`; it carries `error` exactly when the method is not one of the
four strings, or the method is exec, query or close and no database handle is
set, or the method is exec or query, a handle is set and params is `undefined`
or `null`, or an engine call made for the request threw; otherwise it
carries `result`. -/
theorem reply_error_iff (rt : Runtime) (eng : Engine σ) (w : Worker σ) (data : Request)
    (h : eng.ThrowsErrors) :
    ∃ reply : Value, replies rt eng w data = [reply] ∧
      reply.hasField "result" = !reply.hasField "error" ∧
      (reply.hasField "error" = true ↔
        (isKnownMethod data.method = false ∨
          (w.db = none ∧ (data.method = .str "exec" ∨ data.method = .str "query" ∨
            data.method = .str "close")) ∨
          (w.db ≠ none ∧ data.params.isNullish = true ∧
            (data.method = .str "exec" ∨ data.method = .str "query")) ∨
          ∃ c ∈ callsMade rt eng w data, c.thrown.isSome = true)) := by
  obtain ⟨h1, h2, h3, h4⟩ := h
  unfold replies callsMade
  apply onmessage_elim rt eng w data
    (fun r => ∃ reply : Value, r.posted.drop w.posted.length = [reply] ∧
      reply.hasField "result" = !reply.hasField "error" ∧
      (reply.hasField "error" = true ↔
        (isKnownMethod data.method = false ∨
          (w.db = none ∧ (data.method = .str "exec" ∨ data.method = .str "query" ∨
            data.method = .str "close")) ∨
          (w.db ≠ none ∧ data.params.isNullish = true ∧
            (data.method = .str "exec" ∨ data.method = .str "query")) ∨
          ∃ c ∈ r.calls.drop w.calls.length, c.thrown.isSome = true)))
  · intro e s1 _ hi
    obtain ⟨m, hm⟩ := catchBlock_of_not_nullish rt
      { w with engine := s1, calls := w.calls ++ [⟨.initSqlJs, some e⟩] } data e
      (h1 _ _ (by rw [hi]))
    refine ⟨errorReply data.id m, by rw [hm]; simp [postMessage], by simp, ?_⟩
    simp
  · intro sqlModule s1 e s2 _ _ hn
    obtain ⟨m, hm⟩ := catchBlock_of_not_nullish rt
      { w with engine := s2, calls := w.calls ++
          [⟨.initSqlJs, none⟩, ⟨.newDatabase sqlModule, some e⟩] } data e
      (h2 _ _ _ (by rw [hn]))
    refine ⟨errorReply data.id m, by rw [hm]; simp [postMessage], by simp, ?_⟩
    simp
  · intro _ _ _ _ hm _ _
    refine ⟨resultReply data.id .null, by simp, by simp, ?_⟩
    simp [hm, isKnownMethod, strictEq]
  · intro hm hdb
    refine ⟨errorReply data.id _, List.drop_left _ _, by simp, ?_⟩
    rcases hm with hm | hm <;> simp [hm, hdb]
  · intro d hm hdb hp
    refine ⟨errorReply data.id _, List.drop_left _ _, by simp, ?_⟩
    rcases hm with hm | hm <;> simp [hm, hdb, hp]
  · intro d sql e s1 _ _ _ he
    obtain ⟨m, hm⟩ := catchBlock_of_not_nullish rt
      { w with engine := s1, calls := w.calls ++ [⟨.exec d sql, some e⟩] } data e
      (h3 _ _ _ _ (by rw [he]))
    refine ⟨errorReply data.id m, by rw [hm]; simp [postMessage], by simp, ?_⟩
    simp
  · intro d sql r s1 hm hdb hp _
    have hn := not_nullish_of_getProp_ok _ _ _ _ _ hp
    refine ⟨resultReply data.id .null, by simp, by simp, ?_⟩
    simp [hm, hdb, hn, isKnownMethod, strictEq]
  · intro d sql r s1 hm hdb hp _
    have hn := not_nullish_of_getProp_ok _ _ _ _ _ hp
    refine ⟨resultReply data.id r, by simp, by simp, ?_⟩
    simp [hm, hdb, hn, isKnownMethod, strictEq]
  · intro hm hdb
    refine ⟨errorReply data.id _, List.drop_left _ _, by simp, ?_⟩
    simp [hm, hdb]
  · intro d e s1 _ _ he
    obtain ⟨m, hm⟩ := catchBlock_of_not_nullish rt
      { w with engine := s1, calls := w.calls ++ [⟨.close d, some e⟩] } data e
      (h4 _ _ _ (by rw [he]))
    refine ⟨errorReply data.id m, by rw [hm]; simp [postMessage], by simp, ?_⟩
    simp
  · intro d u s1 hm hdb _
    refine ⟨resultReply data.id .null, by simp, by simp, ?_⟩
    simp [hm, hdb, isKnownMethod, strictEq]
  · intro text hk _
    refine ⟨errorReply data.id _, List.drop_left _ _, by simp, ?_⟩
    simp [hk]
  · intro hk _
    refine ⟨errorReply data.id _, List.drop_left _ _, by simp, ?_⟩
    simp [hk]

/-- C2 amended, at the example engine: the exec request on a worker that was
never opened. -/
theorem reply_error_iff_witness :
    demoEngine.ThrowsErrors ∧
    ∃ reply : Value,
      replies demoRuntime demoEngine (Worker.initial 0) (sqlRequest "exec" "SELECT 1") =
        [reply] ∧
      reply.hasField "result" = !reply.hasField "error" ∧
      (reply.hasField "error" = true ↔
        (isKnownMethod (sqlRequest "exec" "SELECT 1").method = false ∨
          ((Worker.initial 0 : Worker Nat).db = none ∧
            ((sqlRequest "exec" "SELECT 1").method = .str "exec" ∨
              (sqlRequest "exec" "SELECT 1").method = .str "query" ∨
              (sqlRequest "exec" "SELECT 1").method = .str "close")) ∨
          ((Worker.initial 0 : Worker Nat).db ≠ none ∧
            (sqlRequest "exec" "SELECT 1").params.isNullish = true ∧
            ((sqlRequest "exec" "SELECT 1").method = .str "exec" ∨
              (sqlRequest "exec" "SELECT 1").method = .str "query")) ∨
          ∃ c ∈ callsMade demoRuntime demoEngine (Worker.initial 0)
            (sqlRequest "exec" "SELECT 1"), c.thrown.isSome = true)) :=
  ⟨demoEngine_throwsErrors,
    reply_error_iff demoRuntime demoEngine (Worker.initial 0)
      (sqlRequest "exec" "SELECT 1") demoEngine_throwsErrors⟩

/-- C6, as stated, fails: an exec request without params, handled while a
database handle is set, makes no call on the handle, and a close request
handled while no handle is set makes no call either. -/
theorem one_call_per_request_fails :
    (openedWorker.db = some 0 ∧
        ¬ ∃ c, callsMade demoRuntime demoEngine openedWorker (bareRequest "exec") = [c]) ∧
      ¬ ∃ c, callsMade demoRuntime demoEngine (Worker.initial 0) closeRequest = [c] := by
  refine ⟨⟨rfl, ?_⟩, ?_⟩
  · rw [show callsMade demoRuntime demoEngine openedWorker (bareRequest "exec") = [] from rfl]
    simp
  · rw [show callsMade demoRuntime demoEngine (Worker.initial 0) closeRequest = [] from rfl]
    simp

/-- C6, amended: while a database handle is set, an exec or query request
whose params is neither `undefined` nor `null` makes exactly one call on the
handle, `exec` with the value of `params.sql` unchanged, and leaves the engine
in the state that call leaves; an exec and a query request with the same
params make the same calls and leave the same engine state; a close request
handled while a handle is set makes exactly one call, `close`, on the handle;
and every `exec` call a request makes carries that request's `params.sql`. -/
theorem requests_pass_through (rt : Runtime) (eng : Engine σ) (w : Worker σ)
    (data : Request) :
    (∀ d sql, w.db = some d →
        (data.method = .str "exec" ∨ data.method = .str "query") →
        getProp rt "params" data.params "sql" = .ok sql →
        callsMade rt eng w data = [⟨.exec d sql, thrownOf (eng.exec d sql w.engine).1⟩] ∧
          (onmessage rt eng w data).engine = (eng.exec d sql w.engine).2) ∧
      (∀ other : Request, data.method = .str "exec" → other.method = .str "query" →
        other.params = data.params →
        (onmessage rt eng w other).calls = (onmessage rt eng w data).calls ∧
          (onmessage rt eng w other).engine = (onmessage rt eng w data).engine ∧
          (onmessage rt eng w other).db = (onmessage rt eng w data).db) ∧
      (∀ d, w.db = some d → data.method = .str "close" →
        callsMade rt eng w data = [⟨.close d, thrownOf (eng.close d w.engine).1⟩]) ∧
      (∀ c ∈ callsMade rt eng w data, ∀ d sql, c.call = .exec d sql →
        getProp rt "params" data.params "sql" = .ok sql) := by
  refine ⟨?_, ?_, ?_, ?_⟩
  · intro d sql hdb hm hp
    unfold callsMade
    rcases he : eng.exec d sql w.engine with ⟨e | r, s1⟩
    · rcases hm with hm | hm <;>
        simp [onmessage, tryBlock, hm, strictEq, hdb, hp, callExec, he, thrownOf]
    · rcases hm with hm | hm <;>
        simp [onmessage, tryBlock, hm, strictEq, hdb, hp, callExec, he, thrownOf, postMessage]
  · intro other hm ho hparams
    rcases hdb : w.db with _ | d
    · simp [onmessage, tryBlock, hm, ho, strictEq, hdb, catchBlock_mkError, postMessage]
    · rcases hp : getProp rt "params" data.params "sql" with e | sql
      · obtain ⟨_, rfl⟩ := (getProp_error_iff _ _ _ _ _).1 hp
        simp [onmessage, tryBlock, hm, ho, strictEq, hdb, hparams, hp, catchBlock_mkError,
          postMessage]
      · rcases he : eng.exec d sql w.engine with ⟨e | r, s1⟩
        · simp [onmessage, tryBlock, hm, ho, strictEq, hdb, hparams, hp, callExec, he]
        · simp [onmessage, tryBlock, hm, ho, strictEq, hdb, hparams, hp, callExec, he,
            postMessage]
  · intro d hdb hm
    unfold callsMade
    rcases he : eng.close d w.engine with ⟨e | u, s1⟩
    · simp [onmessage, tryBlock, hm, strictEq, hdb, callClose, he, thrownOf]
    · simp [onmessage, tryBlock, hm, strictEq, hdb, callClose, he, thrownOf, postMessage]
  · intro c hc d sql hcall
    exact (exec_call_of_mem_callsMade rt eng w data c hc d sql hcall).2

/-- C6 amended, at the example engine: the statement text reaches `exec`
as given, for exec and for query alike, and close makes one call. -/
theorem requests_pass_through_witness :
    (callsMade demoRuntime demoEngine openedWorker (sqlRequest "exec" "CREATE TABLE t (x)") =
        [⟨.exec 0 (.str "CREATE TABLE t (x)"),
          thrownOf (demoEngine.exec 0 (.str "CREATE TABLE t (x)") openedWorker.engine).1⟩] ∧
      (onmessage demoRuntime demoEngine openedWorker
          (sqlRequest "exec" "CREATE TABLE t (x)")).engine =
        (demoEngine.exec 0 (.str "CREATE TABLE t (x)") openedWorker.engine).2) ∧
    ((onmessage demoRuntime demoEngine openedWorker (sqlRequest "query" "SELECT 1")).calls =
        (onmessage demoRuntime demoEngine openedWorker (sqlRequest "exec" "SELECT 1")).calls ∧
      (onmessage demoRuntime demoEngine openedWorker (sqlRequest "query" "SELECT 1")).engine =
        (onmessage demoRuntime demoEngine openedWorker (sqlRequest "exec" "SELECT 1")).engine ∧
      (onmessage demoRuntime demoEngine openedWorker (sqlRequest "query" "SELECT 1")).db =
        (onmessage demoRuntime demoEngine openedWorker (sqlRequest "exec" "SELECT 1")).db) ∧
    callsMade demoRuntime demoEngine openedWorker closeRequest =
      [⟨.close 0, thrownOf (demoEngine.close 0 openedWorker.engine).1⟩] :=
  ⟨(requests_pass_through demoRuntime demoEngine openedWorker
      (sqlRequest "exec" "CREATE TABLE t (x)")).1 0 (.str "CREATE TABLE t (x)") rfl
      (Or.inl rfl) rfl,
    (requests_pass_through demoRuntime demoEngine openedWorker
      (sqlRequest "exec" "SELECT 1")).2.1 (sqlRequest "query" "SELECT 1") rfl rfl rfl,
    (requests_pass_through demoRuntime demoEngine openedWorker closeRequest).2.2.1 0 rfl rfl⟩

/-- C10, as stated, fails in its second part: after a successful close, an
exec request without params makes no `exec` call, and an exec request whose
engine call returns rows is answered by null, not by what the call returned. -/
theorem closed_handle_relay_fails :
    closedWorker.db = some 0 ∧
      (¬ ∃ c, c ∈ callsMade demoRuntime demoEngine closedWorker (bareRequest "exec")) ∧
      (demoEngine.exec 0 (.str "SELECT 1") closedWorker.engine).1 = .ok demoRows ∧
      replies demoRuntime demoEngine closedWorker (sqlRequest "exec" "SELECT 1") =
        [resultReply (.num 2) .null] ∧
      replies demoRuntime demoEngine closedWorker (sqlRequest "exec" "SELECT 1") ≠
        [resultReply (.num 2) demoRows] := by
  refine ⟨rfl, ?_, rfl, rfl, ?_⟩
  · rw [show callsMade demoRuntime demoEngine closedWorker (bareRequest "exec") = [] from rfl]
    simp
  · rw [show replies demoRuntime demoEngine closedWorker (sqlRequest "exec" "SELECT 1") =
      [resultReply (.num 2) .null] from rfl]
    simp [resultReply, demoRows]

/-- C10, amended: a request whose method is not `open` leaves the stored
handle as it was, whether it succeeds or fails.  In particular close does
not clear it: after a successful close and any requests other than open, the
handle is still the closed database, and an exec or query request whose
params is neither `undefined` nor `null` makes exactly one call, `exec` on
that database; the message of an error the call throws is relayed, a query
relays the value the call returns, and an exec answers null. -/
theorem handle_changed_only_by_open (rt : Runtime) (eng : Engine σ) (w : Worker σ)
    (data : Request) :
    (data.method ≠ .str "open" → (onmessage rt eng w data).db = w.db) ∧
      (∀ (closing : Request) (d : Database) (u : Unit) (s1 : σ) (between : List Request)
          (sql : Value),
        w.db = some d → closing.method = .str "close" →
        eng.close d w.engine = (.ok u, s1) →
        (∀ b ∈ between, b.method ≠ .str "open") →
        (data.method = .str "exec" ∨ data.method = .str "query") →
        getProp rt "params" data.params "sql" = .ok sql →
        (onmessageAll rt eng (onmessage rt eng w closing) between).db = some d ∧
          callsMade rt eng (onmessageAll rt eng (onmessage rt eng w closing) between) data =
            [⟨.exec d sql, thrownOf (eng.exec d sql
              (onmessageAll rt eng (onmessage rt eng w closing) between).engine).1⟩] ∧
          (∀ e s2 message,
            eng.exec d sql (onmessageAll rt eng (onmessage rt eng w closing) between).engine =
              (.error e, s2) →
            getProp rt "error" e "message" = .ok message →
            replies rt eng (onmessageAll rt eng (onmessage rt eng w closing) between) data =
              [errorReply data.id message]) ∧
          (∀ r s2,
            eng.exec d sql (onmessageAll rt eng (onmessage rt eng w closing) between).engine =
              (.ok r, s2) →
            data.method = .str "query" →
            replies rt eng (onmessageAll rt eng (onmessage rt eng w closing) between) data =
              [resultReply data.id r]) ∧
          (∀ r s2,
            eng.exec d sql (onmessageAll rt eng (onmessage rt eng w closing) between).engine =
              (.ok r, s2) →
            data.method = .str "exec" →
            replies rt eng (onmessageAll rt eng (onmessage rt eng w closing) between) data =
              [resultReply data.id .null])) := by
  refine ⟨onmessage_db_of_not_open rt eng w data, ?_⟩
  intro closing d u s1 between sql hdb hclosing _ hbetween hm hp
  have hdb1 : (onmessage rt eng w closing).db = some d := by
    rw [onmessage_db_of_not_open rt eng w closing (by rw [hclosing]; simp), hdb]
  have hdb2 : (onmessageAll rt eng (onmessage rt eng w closing) between).db = some d := by
    rw [onmessageAll_db_of_no_open rt eng between _ hbetween, hdb1]
  generalize onmessageAll rt eng (onmessage rt eng w closing) between = w2 at hdb2 ⊢
  refine ⟨hdb2, ?_, ?_, ?_, ?_⟩
  · unfold callsMade
    rcases he : eng.exec d sql w2.engine with ⟨e | r, s2⟩
    · rcases hm with hm | hm <;>
        simp [onmessage, tryBlock, hm, strictEq, hdb2, hp, callExec, he, thrownOf]
    · rcases hm with hm | hm <;>
        simp [onmessage, tryBlock, hm, strictEq, hdb2, hp, callExec, he, thrownOf, postMessage]
  · intro e s2 message he hmessage
    unfold replies
    rcases hm with hm | hm <;>
      simp [onmessage, tryBlock, hm, strictEq, hdb2, hp, callExec, he, catchBlock, hmessage,
        postMessage]
  · intro r s2 he hq
    unfold replies
    simp [onmessage, tryBlock, hq, strictEq, hdb2, hp, callExec, he, postMessage]
  · intro r s2 he hx
    unfold replies
    simp [onmessage, tryBlock, hx, strictEq, hdb2, hp, callExec, he, postMessage]

/-- C10 amended, at the example engine: after open and close, a query still
runs on database 0 and its rows are relayed. -/
theorem handle_changed_only_by_open_witness :
    (onmessage demoRuntime demoEngine openedWorker closeRequest).db = openedWorker.db ∧
      (onmessageAll demoRuntime demoEngine
          (onmessage demoRuntime demoEngine openedWorker closeRequest)
          [bareRequest "vacuum"]).db = some 0 ∧
      replies demoRuntime demoEngine
          (onmessageAll demoRuntime demoEngine
            (onmessage demoRuntime demoEngine openedWorker closeRequest)
            [bareRequest "vacuum"])
          (sqlRequest "query" "SELECT 1") =
        [resultReply (sqlRequest "query" "SELECT 1").id demoRows] :=
  ⟨(handle_changed_only_by_open demoRuntime demoEngine openedWorker closeRequest).1
      (by simp [closeRequest]),
    ((handle_changed_only_by_open demoRuntime demoEngine openedWorker
      (sqlRequest "query" "SELECT 1")).2 closeRequest 0 () 1 [bareRequest "vacuum"]
      (.str "SELECT 1") rfl rfl rfl (by simp [bareRequest]) (Or.inr rfl) rfl).1,
    ((handle_changed_only_by_open demoRuntime demoEngine openedWorker
      (sqlRequest "query" "SELECT 1")).2 closeRequest 0 () 1 [bareRequest "vacuum"]
      (.str "SELECT 1") rfl rfl rfl (by simp [bareRequest]) (Or.inr rfl) rfl).2.2.2.1
      demoRows 1 rfl rfl⟩

/-- C9: in the initial state and in every state reached from it by requests
none of which is a successful open, the handle is unset, and every exec,
query and close request is answered by an error reply `{ id, error }`, makes
no engine call, leaves the engine as it was and leaves the handle unset.  An
exec or query request whose params is `undefined` or `null` is answered in
the same way when a handle is set: an error reply, no engine call, engine and
handle as before. -/
theorem unopened_worker_rejects (rt : Runtime) (eng : Engine σ) (s0 : σ)
    (requests : List Request) (data : Request)
    (hunopened : noSuccessfulOpen rt eng (Worker.initial s0) requests = true) :
    (onmessageAll rt eng (Worker.initial s0) requests).db = none ∧
      ((data.method = .str "exec" ∨ data.method = .str "query" ∨ data.method = .str "close") →
        ∃ message,
          (onmessage rt eng (onmessageAll rt eng (Worker.initial s0) requests) data).posted =
            (onmessageAll rt eng (Worker.initial s0) requests).posted ++
              [errorReply data.id message] ∧
          (onmessage rt eng (onmessageAll rt eng (Worker.initial s0) requests) data).calls =
            (onmessageAll rt eng (Worker.initial s0) requests).calls ∧
          (onmessage rt eng (onmessageAll rt eng (Worker.initial s0) requests) data).engine =
            (onmessageAll rt eng (Worker.initial s0) requests).engine ∧
          (onmessage rt eng (onmessageAll rt eng (Worker.initial s0) requests) data).db = none) ∧
      (∀ (w : Worker σ) (d : Database), w.db = some d →
        (data.method = .str "exec" ∨ data.method = .str "query") →
        data.params.isNullish = true →
        ∃ message,
          (onmessage rt eng w data).posted = w.posted ++ [errorReply data.id message] ∧
          (onmessage rt eng w data).calls = w.calls ∧
          (onmessage rt eng w data).engine = w.engine ∧
          (onmessage rt eng w data).db = w.db) := by
  have hdb : (onmessageAll rt eng (Worker.initial s0) requests).db = none :=
    (onmessageAll_of_noSuccessfulOpen rt eng requests _ hunopened).1
  refine ⟨hdb, ?_, ?_⟩
  · generalize onmessageAll rt eng (Worker.initial s0) requests = w at hdb ⊢
    intro hm
    rcases hm with hm | hm | hm
    · exact ⟨.str (rt.nullishRead "db" .undefined "exec"), by
        simp [onmessage, tryBlock, hm, strictEq, hdb, catchBlock_mkError, postMessage]⟩
    · exact ⟨.str (rt.nullishRead "db" .undefined "exec"), by
        simp [onmessage, tryBlock, hm, strictEq, hdb, catchBlock_mkError, postMessage]⟩
    · exact ⟨.str (rt.nullishRead "db" .undefined "close"), by
        simp [onmessage, tryBlock, hm, strictEq, hdb, catchBlock_mkError, postMessage]⟩
  · intro w d hw hm hnull
    have hx : getProp rt "params" data.params "sql" =
        .error (mkError (rt.nullishRead "params" data.params "sql")) :=
      (getProp_error_iff _ _ _ _ _).2 ⟨hnull, rfl⟩
    refine ⟨.str (rt.nullishRead "params" data.params "sql"), ?_⟩
    rcases hm with hm | hm <;>
      simp [onmessage, tryBlock, hm, strictEq, hw, hx, catchBlock_mkError, postMessage]

/-- C9 at the example engine: after three requests without an open, a query
is answered by the error of reading `exec` from `undefined`; and on an opened
worker an exec without params is answered by the error of reading `sql` from
`undefined`. -/
theorem unopened_worker_rejects_witness :
    (onmessageAll demoRuntime demoEngine (Worker.initial 0) unopenedRequests).db = none ∧
      (∃ message,
        (onmessage demoRuntime demoEngine
            (onmessageAll demoRuntime demoEngine (Worker.initial 0) unopenedRequests)
            (sqlRequest "query" "SELECT 1")).posted =
          (onmessageAll demoRuntime demoEngine (Worker.initial 0) unopenedRequests).posted ++
            [errorReply (sqlRequest "query" "SELECT 1").id message] ∧
        (onmessage demoRuntime demoEngine
            (onmessageAll demoRuntime demoEngine (Worker.initial 0) unopenedRequests)
            (sqlRequest "query" "SELECT 1")).calls =
          (onmessageAll demoRuntime demoEngine (Worker.initial 0) unopenedRequests).calls ∧
        (onmessage demoRuntime demoEngine
            (onmessageAll demoRuntime demoEngine (Worker.initial 0) unopenedRequests)
            (sqlRequest "query" "SELECT 1")).engine =
          (onmessageAll demoRuntime demoEngine (Worker.initial 0) unopenedRequests).engine ∧
        (onmessage demoRuntime demoEngine
            (onmessageAll demoRuntime demoEngine (Worker.initial 0) unopenedRequests)
            (sqlRequest "query" "SELECT 1")).db = none) ∧
      ∃ message,
        (onmessage demoRuntime demoEngine openedWorker (bareRequest "exec")).posted =
          openedWorker.posted ++ [errorReply (bareRequest "exec").id message] ∧
        (onmessage demoRuntime demoEngine openedWorker (bareRequest "exec")).calls =
          openedWorker.calls ∧
        (onmessage demoRuntime demoEngine openedWorker (bareRequest "exec")).engine =
          openedWorker.engine ∧
        (onmessage demoRuntime demoEngine openedWorker (bareRequest "exec")).db =
          openedWorker.db :=
  ⟨(unopened_worker_rejects demoRuntime demoEngine 0 unopenedRequests
      (sqlRequest "query" "SELECT 1") rfl).1,
    (unopened_worker_rejects demoRuntime demoEngine 0 unopenedRequests
      (sqlRequest "query" "SELECT 1") rfl).2.1 (Or.inr (Or.inl rfl)),
    (unopened_worker_rejects demoRuntime demoEngine 0 unopenedRequests
      (bareRequest "exec") rfl).2.2 openedWorker 0 rfl (Or.inl rfl) rfl⟩

end SqfliteSw
